import Mathlib

/-!
Shallow embedding of the Denver-Kabob order-materialization core.

Source files embedded here:
  - src/app/api/orders/ensure/route.ts   (the "ensure" entry point, `POST`)
  - src/unnamed/part_001                 (the Stripe webhook entry point, `POST`)
  - src/app/api/orders/[id]/route.ts     (the status-transition route, `PATCH`)

Conventions of the embedding:
  - JS numbers are modelled as exact rationals; `Number(x.toFixed(2))` is
    modelled as `round2` (round half up at 2 decimal places); binary floating
    point artefacts are idealized away.
  - External collaborators (Supabase, Stripe) are modelled oracle-style: each
    flow takes an environment record holding the response of every query the
    code can issue, and returns its HTTP-level response together with the list
    of storage operations it performed, in order.
  - `parseFloat` of a metadata string is modelled by the `JSNum` the string
    parses to (`nan` for a non-numeric string); an absent or empty metadata
    value is `none`, matching the JS truthiness guards in the source.
-/

/-! ## JS-style string helpers -/

/-- Lower-casing of a string, as in JS `toLowerCase` (ASCII data). -/
def lowerStr (s : String) : String := String.mk (s.toList.map Char.toLower)

/-- `replace(/\D/g, '')`: keep only the decimal digits of a string. -/
def digitsOf (s : String) : String := String.mk (s.toList.filter Char.isDigit)

/-- JS `trim()`: strip whitespace from both ends. -/
def trimStr (s : String) : String :=
  String.mk (((s.toList.dropWhile Char.isWhitespace).reverse.dropWhile
    Char.isWhitespace).reverse)

/-- Whether the second list is an initial segment of the first. -/
def startsWithChars : List Char → List Char → Bool
  | _, [] => true
  | [], _ :: _ => false
  | a :: as, p :: ps => a == p && startsWithChars as ps

/-- Whether `p` occurs as a contiguous run inside `s` (char lists). -/
def hasSubAux (p : List Char) : List Char → Bool
  | [] => startsWithChars [] p
  | c :: rest => startsWithChars (c :: rest) p || hasSubAux p rest

/-- JS `String.prototype.includes`. -/
def containsSubstring (s pat : String) : Bool := hasSubAux pat.toList s.toList

/-- JS truthiness of an optional string: `undefined`, `null` and `''` are falsy. -/
def truthyStr : Option String → Option String
  | some s => if s = "" then none else some s
  | none => none

/-- JS `(a || b || '')` over two optional strings. -/
def pickStr (a b : Option String) : String :=
  match truthyStr a with
  | some v => v
  | none =>
    match truthyStr b with
    | some v => v
    | none => ""

/-- JS `(a || dflt)` for a string field with a default. -/
def orDefault (a : Option String) (dflt : String) : String :=
  match truthyStr a with
  | some v => v
  | none => dflt

/-- JS `str.split(' ')` (split at every single space, keeping empty pieces). -/
def splitOnSpaceAux : List Char → List Char → List String
  | acc, [] => [String.mk acc.reverse]
  | acc, c :: rest =>
    if c = ' ' then String.mk acc.reverse :: splitOnSpaceAux [] rest
    else splitOnSpaceAux (c :: acc) rest

/-- JS `str.split(' ')`. -/
def splitOnSpace (s : String) : List String := splitOnSpaceAux [] s.toList

/-- `Number(x.toFixed(2))` in the idealized decimal model: round half up to
2 decimal places. -/
def round2 (q : ℚ) : ℚ := ((Int.floor (q * 100 + 1 / 2) : Int) : ℚ) / 100

/-- The result of `parseFloat` on a metadata string: a finite value or `NaN`. -/
inductive JSNum where
  | nan
  | num (q : ℚ)
deriving DecidableEq

/-- `x ? parseFloat(String(x)) : 0` followed by `Number.isFinite(v) ? v : 0`:
the numeric value actually used for a metadata field, with no sign clamp
(ensure route, and the webhook `tax` field). -/
def metaNumVal : Option JSNum → ℚ
  | none => 0
  | some .nan => 0
  | some (.num q) => q

/-- The webhook variant for `tip_amount` / `tip_percent`:
`Number.isFinite(v) && v >= 0 ? v : 0`. -/
def metaNumValClamped : Option JSNum → ℚ
  | none => 0
  | some .nan => 0
  | some (.num q) => if q ≥ 0 then q else 0

/-! ## Storage and provider model -/

/-- A Supabase/PostgREST error object (`message`, `code`). -/
structure DBError where
  message : String
  code : String
deriving DecidableEq

/-- Outcome of a single storage query. -/
inductive DBRes (α : Type) where
  | ok (data : α)
  | err (e : DBError)
deriving DecidableEq

/-- A JSON-ish value inside an insert payload. -/
inductive Val where
  | s (v : String)
  | n (v : ℚ)
  | null
deriving DecidableEq

/-- A persisted order row as returned by storage (fields beyond the ones the
flows inspect are abstracted away). -/
structure OrderRow where
  id : String
  order_number : Option Int
deriving DecidableEq

/-- One `order_items` row as built by either flow. -/
structure ItemRowPayload where
  order_id : String
  menu_item_id : String
  menu_item_name : String
  quantity : Int
  price : ℚ
deriving DecidableEq

/-- One storage operation, as recorded in a flow trace. -/
inductive DBOp where
  | selectOrderBySession (sid : String)
  | selectMaxOrderNumber
  | insertOrder (payload : List (String × Val))
  | insertOrderItems (rows : List ItemRowPayload)
  | selectOrderById (oid : String)
deriving DecidableEq

/-- `session.customer_details` from the provider. -/
structure CustomerDetails where
  name : Option String := none
  phone : Option String := none
  email : Option String := none
deriving DecidableEq

/-- One Stripe line item (`description`, `price.unit_amount`, `quantity`),
with `none` standing for an absent / non-number field. -/
structure LineItem where
  id : String
  description : Option String := none
  price_unit_amount : Option Int := none
  quantity : Option Int := none
deriving DecidableEq

/-- An addon inside a cart item from the webhook `items` metadata JSON. -/
structure Addon where
  name : String
  price : ℚ
deriving DecidableEq

/-- A cart item: either parsed from the `items` metadata JSON or reconstructed
from Stripe line items. -/
structure CartItem where
  id : String
  name : String
  price : ℚ
  quantity : Int
  selectedOptions : List String := []
  selectedAddons : List Addon := []
deriving DecidableEq

/-- The webhook `items` metadata field after `JSON.parse`: parsing may throw
(`malformed`), yield a non-array, or yield an array of cart items. `none` at
the `Meta` level models an absent or empty string (falsy). -/
inductive ItemsField where
  | malformed
  | nonArray
  | arr (l : List CartItem)
deriving DecidableEq

/-- `session.metadata`. String fields are `none` when absent; numeric fields
carry their `parseFloat` result (`none` = absent or empty string). -/
structure Meta where
  customer_name : Option String := none
  customer_first_name : Option String := none
  customer_last_name : Option String := none
  customer_phone : Option String := none
  customer_email : Option String := none
  tip_percent : Option JSNum := none
  tip_amount : Option JSNum := none
  comments : Option String := none
  tax : Option JSNum := none
  items : Option ItemsField := none
deriving DecidableEq

/-- A Stripe checkout session as both routes read it. `amount_total` is in
minor units (cents); `none` models a non-number value. -/
structure Session where
  id : String
  payment_status : Option String := none
  metadata : Meta := {}
  customer_details : Option CustomerDetails := none
  amount_total : Option Int := none
deriving DecidableEq

/-! ## Shared logic: missing-column heuristic, payment check, allocator -/

/-- `isMissingColumnError` (identical in both routes): case-insensitive match
on "column" together with "does not exist", or "could not find", or
"schema cache". -/
def isMissingColumnError : Option String → Bool
  | none => false
  | some message =>
    let normalized := lowerStr message
    (containsSubstring normalized "column" &&
      containsSubstring normalized "does not exist") ||
    containsSubstring normalized "could not find" ||
    containsSubstring normalized "schema cache"

/-- The guard `session.payment_status && status !== 'paid' &&
status !== 'no_payment_required'` (identical in both routes): `true` exactly
when the session carries a non-empty payment status other than the two
accepted ones. -/
def notPaidCheck (s : Session) : Bool :=
  match s.payment_status with
  | none => false
  | some st => if st = "" then false else (st != "paid" && st != "no_payment_required")

/-- Order-number allocation from the max-order-number query result (identical
logic in both routes): on a missing-column error the numbering feature is
flagged unavailable; on success, `data?.order_number ? n + 1 : 1000` (note the
JS truthiness: a stored maximum of 0 yields 1000). Returns
`(orderNumberColumnMissing, nextOrderNumber)`. -/
def allocOrderNumber (r : DBRes (Option (Option Int))) : Bool × Option Int :=
  match r with
  | .err e => if isMissingColumnError (some e.message) then (true, none) else (false, none)
  | .ok d =>
    match d with
    | some (some n) => if n = 0 then (false, some 1000) else (false, some (n + 1))
    | _ => (false, some 1000)

/-- The two-shape insert strategy (identical in both routes): attempt the full
insert; if it failed with a missing-column error, the single retry with the
minimal shape is the result; any other outcome stands. Returns the effective
insert result and whether the retry was performed. -/
def insertWithFallback (fullRes minRes : DBRes OrderRow) : DBRes OrderRow × Bool :=
  match fullRes with
  | .err e =>
    if isMissingColumnError (some e.message) then (minRes, true) else (fullRes, false)
  | .ok d => (.ok d, false)

/-- `x || null` for a string already collapsed to `""` when falsy. -/
def nullableStr (v : String) : Val := if v = "" then Val.null else Val.s v

/-! ## Ensure route (src/app/api/orders/ensure/route.ts) -/

/-- `session.customer_details?.name`. -/
def cdName (s : Session) : Option String := s.customer_details.bind (fun c => c.name)

/-- `session.customer_details?.phone`. -/
def cdPhone (s : Session) : Option String := s.customer_details.bind (fun c => c.phone)

/-- `session.customer_details?.email`. -/
def cdEmail (s : Session) : Option String := s.customer_details.bind (fun c => c.email)

/-- `(meta.customer_name || session.customer_details?.name || '').toString().trim()`. -/
def ensureCustomerName (s : Session) : String :=
  trimStr (pickStr s.metadata.customer_name (cdName s))

/-- `(meta.customer_phone || session.customer_details?.phone || '').toString().trim()`. -/
def ensureCustomerPhone (s : Session) : String :=
  trimStr (pickStr s.metadata.customer_phone (cdPhone s))

/-- `customerPhone.replace(/\D/g, '')`. -/
def ensurePhoneDigits (s : Session) : String := digitsOf (ensureCustomerPhone s)

/-- `(meta.customer_email || session.customer_details?.email || '').toString().trim()`. -/
def ensureCustomerEmail (s : Session) : String :=
  trimStr (pickStr s.metadata.customer_email (cdEmail s))

/-- `(meta.customer_first_name || '').toString().trim()`. -/
def ensureFirstName (s : Session) : String :=
  trimStr (pickStr s.metadata.customer_first_name none)

/-- `(meta.customer_last_name || '').toString().trim()`. -/
def ensureLastName (s : Session) : String :=
  trimStr (pickStr s.metadata.customer_last_name none)

/-- `(meta.comments || '').toString().trim().slice(0, 400)`. -/
def ensureComments (s : Session) : String :=
  (trimStr (pickStr s.metadata.comments none)).take 400

/-- `taxAmount` in the ensure route: parsed, finite-guarded, no sign clamp. -/
def ensureTaxAmount (s : Session) : ℚ := metaNumVal s.metadata.tax

/-- `tipAmount` in the ensure route: parsed, finite-guarded, no sign clamp. -/
def ensureTipAmount (s : Session) : ℚ := metaNumVal s.metadata.tip_amount

/-- `tipPercent` in the ensure route: parsed, finite-guarded, no sign clamp. -/
def ensureTipPercent (s : Session) : ℚ := metaNumVal s.metadata.tip_percent

/-- `typeof session.amount_total === 'number' ? session.amount_total / 100 : 0`. -/
def stripeTotalRaw (s : Session) : ℚ :=
  match s.amount_total with
  | some n => (n : ℚ) / 100
  | none => 0

/-- `totalAmount = Number(stripeTotalRaw.toFixed(2))` (the `isFinite` guard is
the identity on exact rationals). Identical in both routes. -/
def totalAmountOf (s : Session) : ℚ := round2 (stripeTotalRaw s)

/-- `subtotalAmount = Number((totalAmount - taxAmount - tipAmount).toFixed(2))`
in the ensure route. -/
def ensureSubtotalAmount (s : Session) : ℚ :=
  round2 (totalAmountOf s - ensureTaxAmount s - ensureTipAmount s)

/-- The ensure route order-number payload:
`orderNumberColumnMissing || nextOrderNumber === null ? {} : { order_number }`
(strict null check: a numeric 0 would still be included here). -/
def ensureOrderNumberPayload (cm : Bool) (next : Option Int) : List (String × Val) :=
  if cm then []
  else
    match next with
    | none => []
    | some n => [("order_number", Val.n (n : ℚ))]

/-- `fullInsertPayload` of the ensure route. -/
def ensureFullInsertPayload (s : Session) (sessionId : String) (cm : Bool)
    (next : Option Int) : List (String × Val) :=
  [("customer_name", Val.s (ensureCustomerName s)),
   ("customer_first_name", nullableStr (ensureFirstName s)),
   ("customer_last_name", nullableStr (ensureLastName s)),
   ("customer_phone", Val.s (ensurePhoneDigits s)),
   ("customer_email", nullableStr (ensureCustomerEmail s)),
   ("tip_percent", Val.n (ensureTipPercent s)),
   ("tip_amount", Val.n (ensureTipAmount s)),
   ("comments", nullableStr (ensureComments s)),
   ("total_amount", Val.n (totalAmountOf s)),
   ("tax_amount", Val.n (ensureTaxAmount s)),
   ("status", Val.s "pending"),
   ("stripe_session_id", Val.s sessionId)] ++ ensureOrderNumberPayload cm next

/-- `minimalInsertPayload` of the ensure route. -/
def ensureMinimalInsertPayload (s : Session) (sessionId : String) (cm : Bool)
    (next : Option Int) : List (String × Val) :=
  [("customer_name", Val.s (ensureCustomerName s)),
   ("customer_phone", Val.s (ensurePhoneDigits s)),
   ("customer_email", nullableStr (ensureCustomerEmail s)),
   ("total_amount", Val.n (totalAmountOf s)),
   ("tax_amount", Val.n (ensureTaxAmount s)),
   ("status", Val.s "pending"),
   ("stripe_session_id", Val.s sessionId)] ++ ensureOrderNumberPayload cm next

/-- The `order_items` rows the ensure route builds from Stripe line items,
excluding "sales tax" and "tip" pseudo-items. -/
def ensureLineItemRows (oid : String) (ls : List LineItem) : List ItemRowPayload :=
  (ls.filter (fun li =>
      let name := lowerStr (pickStr li.description none)
      name != "sales tax" && name != "tip")).map (fun li =>
    { order_id := oid
      menu_item_id := li.id
      menu_item_name := orDefault li.description "Item"
      quantity := li.quantity.getD 1
      price := ((li.price_unit_amount.getD 0 : Int) : ℚ) / 100 })

/-- Responses of every storage and provider call the ensure route can make,
in source order. -/
structure EnsureEnv where
  stripeConfigured : Bool := true
  existingRes : DBRes (Option OrderRow) := .ok none
  session : Session
  lastOrderRes : DBRes (Option (Option Int)) := .ok none
  fullInsertRes : DBRes OrderRow
  minInsertRes : DBRes OrderRow := .err { message := "unused", code := "" }
  retryRes : DBRes (Option OrderRow) := .ok none
  lineItems : List LineItem := []
  itemsInsertErr : Option DBError := none
  completeRes : DBRes OrderRow

/-- HTTP-level response of the ensure route. -/
inductive EnsureResp where
  | errResp (msg : String) (code : Nat)
  | okOrder (o : OrderRow) (created : Bool)
  | okOrderSub (o : OrderRow) (created : Bool) (subtotal : ℚ)
deriving DecidableEq

/-- Whether an ensure-route response reports a (newly or previously) persisted
order with `created = true`. -/
def EnsureResp.isCreated : EnsureResp → Bool
  | .okOrder _ c => c
  | .okOrderSub _ c _ => c
  | .errResp _ _ => false

/-- `error.message || 'Failed to ensure order'` in the ensure route catch-all. -/
def errMsgOr (m : String) : String := if m = "" then "Failed to ensure order" else m

/-- The ensure route `POST` handler: idempotent order materialization for one
`sessionId`, returning the response and the ordered storage-operation trace. -/
def ensureFlow (sessionId : String) (env : EnsureEnv) : EnsureResp × List DBOp :=
  if env.stripeConfigured then
    if sessionId = "" then (.errResp "sessionId is required" 400, [])
    else
      match env.existingRes with
      | .err e => (.errResp (errMsgOr e.message) 500, [.selectOrderBySession sessionId])
      | .ok (some o) => (.okOrder o false, [.selectOrderBySession sessionId])
      | .ok none =>
        let s := env.session
        if notPaidCheck s then
          (.errResp "Session is not paid" 400, [.selectOrderBySession sessionId])
        else if ensureCustomerName s = "" ∨ ensurePhoneDigits s = "" then
          (.errResp "Missing customer_name/customer_phone on session" 400,
            [.selectOrderBySession sessionId])
        else if (ensurePhoneDigits s).length < 10 then
          (.errResp "Invalid customer_phone on session" 400,
            [.selectOrderBySession sessionId])
        else
          let alloc := allocOrderNumber env.lastOrderRes
          let tr1 := [DBOp.selectOrderBySession sessionId, DBOp.selectMaxOrderNumber]
          let fullP := ensureFullInsertPayload s sessionId alloc.1 alloc.2
          let minP := ensureMinimalInsertPayload s sessionId alloc.1 alloc.2
          let ins := insertWithFallback env.fullInsertRes env.minInsertRes
          let tr2 := tr1 ++ [DBOp.insertOrder fullP] ++
            (if ins.2 then [DBOp.insertOrder minP] else [])
          match ins.1 with
          | .err e =>
            -- race with the webhook: try the existence query again
            let tr3 := tr2 ++ [DBOp.selectOrderBySession sessionId]
            match env.retryRes with
            | .ok (some o) => (.okOrder o false, tr3)
            | .ok none => (.errResp (errMsgOr e.message) 500, tr3)
            | .err _ => (.errResp (errMsgOr e.message) 500, tr3)
          | .ok order =>
            let rows := ensureLineItemRows order.id env.lineItems
            -- an order_items insert error is only logged, never surfaced
            let tr4 := tr2 ++ (if rows.length > 0 then [DBOp.insertOrderItems rows] else [])
            let tr5 := tr4 ++ [DBOp.selectOrderById order.id]
            match env.completeRes with
            | .err _ => (.okOrder order true, tr5)
            | .ok c => (.okOrderSub c true (ensureSubtotalAmount s), tr5)
  else (.errResp "Stripe is not configured" 500, [])

/-! ## Webhook route (src/unnamed/part_001) -/

/-- The `customer_name` metadata value after the truthiness guard. -/
def webhookMetaName (s : Session) : Option String := truthyStr s.metadata.customer_name

/-- The `customer_phone` metadata value after the truthiness guard. -/
def webhookMetaPhone (s : Session) : Option String := truthyStr s.metadata.customer_phone

/-- `customer_phone.toString().replace(/\D/g, '')` over the metadata phone. -/
def webhookPhoneDigits (s : Session) : String :=
  digitsOf ((webhookMetaPhone s).getD "")

/-- `customer_name.split(' ').filter(Boolean)`. -/
def webhookNameParts (name : String) : List String :=
  (splitOnSpace name).filter (fun p => p != "")

/-- `derivedFirstName = customer_first_name || nameParts[0] || customer_name`. -/
def webhookFirstName (s : Session) (name : String) : String :=
  match truthyStr s.metadata.customer_first_name with
  | some v => v
  | none =>
    match webhookNameParts name with
    | p :: _ => p
    | [] => name

/-- `derivedLastName = customer_last_name || nameParts.slice(1).join(' ') || null`. -/
def webhookLastName (s : Session) (name : String) : Option String :=
  match truthyStr s.metadata.customer_last_name with
  | some v => some v
  | none =>
    let rest := String.intercalate " " (webhookNameParts name).tail
    if rest = "" then none else some rest

/-- `taxAmount` in the webhook: parsed, finite-guarded, no sign clamp. -/
def webhookTaxAmount (s : Session) : ℚ := metaNumVal s.metadata.tax

/-- `tipAmount` in the webhook: parsed, finite-guarded and clamped to `≥ 0`. -/
def webhookTipAmount (s : Session) : ℚ := metaNumValClamped s.metadata.tip_amount

/-- `tipPercent` in the webhook: parsed, finite-guarded and clamped to `≥ 0`. -/
def webhookTipPercent (s : Session) : ℚ := metaNumValClamped s.metadata.tip_percent

/-- `normalizedTipAmount = tipAmount > 0 ? tipAmount : 0`. -/
def webhookNormalizedTipAmount (s : Session) : ℚ :=
  if webhookTipAmount s > 0 then webhookTipAmount s else 0

/-- `subtotalAmount` in the webhook. -/
def webhookSubtotalAmount (s : Session) : ℚ :=
  round2 (totalAmountOf s - webhookTaxAmount s - webhookNormalizedTipAmount s)

/-- `comments ? comments.toString().slice(0, 400) : null` (no trim here). -/
def webhookComments (s : Session) : Val :=
  match truthyStr s.metadata.comments with
  | some c => Val.s (c.take 400)
  | none => Val.null

/-- Cart items reconstructed from Stripe line items when cart metadata is
absent or unusable, excluding "sales tax" and "tip" pseudo-items. -/
def cartFromLineItems (ls : List LineItem) : List CartItem :=
  (ls.filter (fun li =>
      let name := lowerStr (pickStr li.description none)
      name != "sales tax" && name != "tip")).map (fun li =>
    { id := li.id
      name := orDefault li.description "Item"
      price := ((li.price_unit_amount.getD 0 : Int) : ℚ) / 100
      quantity := li.quantity.getD 1
      selectedOptions := []
      selectedAddons := [] })

/-- The effective cart: the parsed `items` metadata JSON when it is a
non-empty array, else the reconstruction from line items. -/
def webhookOrderItems (s : Session) (ls : List LineItem) : List CartItem :=
  match s.metadata.items with
  | some (.arr l) => if l.length = 0 then cartFromLineItems ls else l
  | _ => cartFromLineItems ls

/-- The `order_items` rows for one cart item: the main row (name suffixed with
the joined options when present) followed by one row per addon. -/
def cartItemRows (oid : String) (item : CartItem) : List ItemRowPayload :=
  let itemName :=
    if item.selectedOptions.length > 0 then
      item.name ++ " (" ++ String.intercalate ", " item.selectedOptions ++ ")"
    else item.name
  { order_id := oid
    menu_item_id := item.id
    menu_item_name := itemName
    quantity := item.quantity
    price := item.price }
  :: item.selectedAddons.map (fun a =>
    { order_id := oid
      menu_item_id := item.id ++ "-addon-" ++ a.name
      menu_item_name := "+ " ++ a.name
      quantity := item.quantity
      price := a.price })

/-- `orderItemsData = orderItems.flatMap(...)` in the webhook. -/
def webhookItemRows (oid : String) (cart : List CartItem) : List ItemRowPayload :=
  cart.flatMap (cartItemRows oid)

/-- `fullInsertPayload` of the webhook (the order-number entry is spread in
separately at the insert call). -/
def webhookFullInsertPayload (s : Session) : List (String × Val) :=
  let name := (webhookMetaName s).getD ""
  [("customer_name", Val.s name),
   ("customer_first_name", Val.s (webhookFirstName s name)),
   ("customer_last_name",
     match webhookLastName s name with
     | some v => Val.s v
     | none => Val.null),
   ("customer_phone", Val.s (webhookPhoneDigits s)),
   ("customer_email",
     match truthyStr s.metadata.customer_email with
     | some v => Val.s v
     | none => Val.null),
   ("tip_percent", Val.n (webhookTipPercent s)),
   ("tip_amount", Val.n (webhookNormalizedTipAmount s)),
   ("comments", webhookComments s),
   ("total_amount", Val.n (totalAmountOf s)),
   ("tax_amount", Val.n (webhookTaxAmount s)),
   ("status", Val.s "pending"),
   ("stripe_session_id", Val.s s.id)]

/-- `minimalInsertPayload` of the webhook. -/
def webhookMinimalInsertPayload (s : Session) : List (String × Val) :=
  let name := (webhookMetaName s).getD ""
  [("customer_name", Val.s name),
   ("customer_phone", Val.s (webhookPhoneDigits s)),
   ("customer_email",
     match truthyStr s.metadata.customer_email with
     | some v => Val.s v
     | none => Val.null),
   ("total_amount", Val.n (totalAmountOf s)),
   ("tax_amount", Val.n (webhookTaxAmount s)),
   ("status", Val.s "pending"),
   ("stripe_session_id", Val.s s.id)]

/-- The webhook order-number payload:
`orderNumberColumnMissing || !nextOrderNumber ? {} : { order_number }`
(JS truthiness: a numeric 0 is dropped here, unlike the ensure route). -/
def webhookOrderNumberPayload (cm : Bool) (next : Option Int) : List (String × Val) :=
  if cm then []
  else
    match next with
    | none => []
    | some n => if n = 0 then [] else [("order_number", Val.n (n : ℚ))]

/-- Responses of every storage call the webhook handler can make, in source
order. The existence check uses `.single()`, so "no rows" arrives as an error
with code `PGRST116`. -/
structure WebhookEnv where
  existingRes : DBRes OrderRow := .err { message := "no rows", code := "PGRST116" }
  fallbackExistingRes : DBRes (Option OrderRow) := .ok none
  lastOrderRes : DBRes (Option (Option Int)) := .ok none
  lineItems : List LineItem := []
  fullInsertRes : DBRes OrderRow
  minInsertRes : DBRes OrderRow := .err { message := "unused", code := "" }
  itemsInsertErr : Option DBError := none

/-- HTTP-level response of the webhook handler for a
`checkout.session.completed` event: an acknowledgement (with the optional
`message` body field) or the catch-all 500. -/
inductive WebhookResp where
  | ack (message : Option String)
  | errorResp (msg : String) (code : Nat)
deriving DecidableEq

/-- The webhook `POST` handler, modelled from the point where a
`checkout.session.completed` event with a verified signature carries session
`s` (signature verification and other event types are outside the core).
Returns the response and the ordered storage-operation trace. -/
def webhookFlow (s : Session) (env : WebhookEnv) : WebhookResp × List DBOp :=
  if notPaidCheck s then (.ack none, [])
  else
    match webhookMetaName s, webhookMetaPhone s with
    | some _, some phone =>
      if (digitsOf phone).length < 10 then (.errorResp "Failed to process order" 500, [])
      else
        let cart := webhookOrderItems s env.lineItems
        -- existence check via .single(), with the missing-column fallback
        let step1 : Bool × Option OrderRow × List DBOp :=
          match env.existingRes with
          | .ok row => (false, some row, [DBOp.selectOrderBySession s.id])
          | .err e =>
            if isMissingColumnError (some e.message) then
              match env.fallbackExistingRes with
              | .ok d => (true, d, [DBOp.selectOrderBySession s.id,
                  DBOp.selectOrderBySession s.id])
              | .err _ => (true, none, [DBOp.selectOrderBySession s.id,
                  DBOp.selectOrderBySession s.id])
            else (false, none, [DBOp.selectOrderBySession s.id])
        match step1.2.1 with
        | some _ => (.ack (some "Order already processed"), step1.2.2)
        | none =>
          let step2 : Bool × Option Int × List DBOp :=
            if step1.1 then (true, none, step1.2.2)
            else
              let a := allocOrderNumber env.lastOrderRes
              (a.1, a.2, step1.2.2 ++ [DBOp.selectMaxOrderNumber])
          let cm := step2.1
          let next := step2.2.1
          let insertWithNumber := !cm && next ≠ none
          let onp := webhookOrderNumberPayload cm next
          let fullP :=
            if insertWithNumber then webhookFullInsertPayload s ++ onp
            else webhookFullInsertPayload s
          let minP :=
            if insertWithNumber then webhookMinimalInsertPayload s ++ onp
            else webhookMinimalInsertPayload s
          let ins := insertWithFallback env.fullInsertRes env.minInsertRes
          let tr2 := step2.2.2 ++ [DBOp.insertOrder fullP] ++
            (if ins.2 then [DBOp.insertOrder minP] else [])
          match ins.1 with
          | .err _ => (.errorResp "Failed to process order" 500, tr2)
          | .ok order =>
            let rows := webhookItemRows order.id cart
            let tr3 := tr2 ++ [DBOp.insertOrderItems rows]
            match env.itemsInsertErr with
            | some _ => (.errorResp "Failed to process order" 500, tr3)
            | none => (.ack none, tr3)
    | _, _ => (.errorResp "Failed to process order" 500, [])

/-! ## Status-transition route (src/app/api/orders/[id]/route.ts) -/

/-- `VALID_STATUSES` of the PATCH route. -/
def VALID_STATUSES : List String := ["pending", "preparing", "ready", "completed"]

/-- A stored order as the PATCH route sees it: its id and current status. -/
structure StoredOrder where
  id : String
  status : String
deriving DecidableEq

/-- HTTP-level response of the PATCH route. -/
inductive PatchResp where
  | invalidStatus (msg : String)
  | notFound
  | updated (o : StoredOrder)
  | serverError (msg : String)
deriving DecidableEq

/-- `.select(...).eq('id', id).single()`: exactly one matching row, else an
error (PGRST116 on zero rows, cardinality error on several). -/
def patchFetchSingle (store : List StoredOrder) (oid : String) : Option StoredOrder :=
  match store.filter (fun o => o.id = oid) with
  | [o] => some o
  | _ => none

/-- The PATCH handler over a concrete order store: validate the requested
status, 404 when the id does not exist, else persist the new status (no
ordering constraint over the current status is checked anywhere). Returns the
response and the updated store. -/
def patchFlow (store : List StoredOrder) (oid : String) (status : Option String) :
    PatchResp × List StoredOrder :=
  let invalidMsg := "Invalid status. Must be one of: " ++
    String.intercalate ", " VALID_STATUSES
  match status with
  | none => (.invalidStatus invalidMsg, store)
  | some st =>
    if st = "" ∨ ¬ (VALID_STATUSES.contains st) then (.invalidStatus invalidMsg, store)
    else
      match patchFetchSingle store oid with
      | none => (.notFound, store)
      | some _ =>
        let store2 := store.map (fun o => if o.id = oid then { o with status := st } else o)
        match patchFetchSingle store2 oid with
        | some o2 => (.updated o2, store2)
        | none => (.serverError "Failed to update order", store2)

/-! ## Trace projections used by the claims -/

/-- Number of by-session existence queries in a trace. -/
def countSessionSelects (tr : List DBOp) : Nat :=
  (tr.filter (fun op =>
    match op with
    | .selectOrderBySession _ => true
    | _ => false)).length

/-- Number of order-row inserts in a trace. -/
def countOrderInserts (tr : List DBOp) : Nat :=
  (tr.filter (fun op =>
    match op with
    | .insertOrder _ => true
    | _ => false)).length

/-- Number of order-items inserts in a trace. -/
def countItemInserts (tr : List DBOp) : Nat :=
  (tr.filter (fun op =>
    match op with
    | .insertOrderItems _ => true
    | _ => false)).length

/-- Number of max-order-number reads in a trace. -/
def countMaxReads (tr : List DBOp) : Nat :=
  (tr.filter (fun op =>
    match op with
    | .selectMaxOrderNumber => true
    | _ => false)).length

/-- The payload of the first order insert in a trace, if any. -/
def firstOrderInsertPayload : List DBOp → Option (List (String × Val))
  | [] => none
  | .insertOrder p :: _ => some p
  | _ :: rest => firstOrderInsertPayload rest

/-! ## Concrete fixtures for witnesses and counterexamples -/

/-- A persisted order row with an order number. -/
def oRow1 : OrderRow := { id := "ord_1", order_number := some 1000 }

/-- A persisted order row without an order number. -/
def oRow2 : OrderRow := { id := "ord_2", order_number := none }

/-- Metadata of the specification scenario: Jo Lee, phone 555-111-2222,
tax 1.50. -/
def metaJo : Meta :=
  { customer_name := some "Jo Lee"
    customer_phone := some "555-111-2222"
    tax := some (.num (3 / 2)) }

/-- A paid session for the specification scenario (`amount_total` 2150 cents). -/
def sessJo : Session :=
  { id := "cs_test_1"
    payment_status := some "paid"
    metadata := metaJo
    amount_total := some 2150 }

/-- PostgREST "no rows" error produced by `.single()` on an empty result. -/
def noRowsErr : DBError :=
  { message := "JSON object requested, multiple (or no) rows returned"
    code := "PGRST116" }

/-- A unique-constraint violation (not a missing-column error). -/
def dupErr : DBError :=
  { message := "duplicate key value violates unique constraint"
    code := "23505" }

/-- A PostgREST missing-column / stale-schema-cache error. -/
def schemaErr : DBError :=
  { message := "Could not find the tip_percent column of orders in the schema cache"
    code := "PGRST204" }

/-- A generic failure of the order_items insert. -/
def itemsFailErr : DBError :=
  { message := "order_items insert failed", code := "XX000" }

/-- One ordinary Stripe line item. -/
def liKabob : LineItem :=
  { id := "li_1"
    description := some "Kabob Plate"
    price_unit_amount := some 1500
    quantity := some 1 }

/-- Ensure environment in which the order already exists. -/
def envC1 : EnsureEnv :=
  { session := sessJo
    existingRes := .ok (some oRow1)
    fullInsertRes := .ok oRow1
    completeRes := .ok oRow1 }

/-- Webhook environment in which the order already exists. -/
def wenvC1 : WebhookEnv :=
  { existingRes := .ok oRow1
    fullInsertRes := .ok oRow1 }

/-- A completed-but-unpaid session. -/
def sessUnpaid : Session :=
  { id := "cs_unpaid"
    payment_status := some "unpaid"
    metadata := metaJo
    amount_total := some 2150 }

/-- Ensure environment holding the unpaid session (no order persisted yet). -/
def envUnpaid : EnsureEnv :=
  { session := sessUnpaid
    existingRes := .ok none
    fullInsertRes := .ok oRow1
    completeRes := .ok oRow1 }

/-- Webhook environment in which the order insert fails with a
unique-constraint violation (a concurrent creator won the race). -/
def wenvC2 : WebhookEnv :=
  { existingRes := .err noRowsErr
    lastOrderRes := .ok (some (some 1000))
    fullInsertRes := .err dupErr
    minInsertRes := .err dupErr }

/-- Ensure environment in which the order insert fails but the re-query finds
the concurrently created order. -/
def envC2w : EnsureEnv :=
  { session := sessJo
    existingRes := .ok none
    lastOrderRes := .ok (some (some 1000))
    fullInsertRes := .err dupErr
    minInsertRes := .err dupErr
    retryRes := .ok (some oRow1)
    completeRes := .ok oRow1 }

/-- Webhook environment in which the order insert succeeds and the
order_items insert then fails. -/
def wenvC4 : WebhookEnv :=
  { existingRes := .err noRowsErr
    lastOrderRes := .ok (some (some 1000))
    fullInsertRes := .ok oRow1
    itemsInsertErr := some itemsFailErr }

/-- Ensure environment in which the order insert succeeds and the
order_items insert then fails. -/
def envC4w : EnsureEnv :=
  { session := sessJo
    existingRes := .ok none
    lastOrderRes := .ok (some (some 1000))
    fullInsertRes := .ok oRow1
    lineItems := [liKabob]
    itemsInsertErr := some itemsFailErr
    completeRes := .ok oRow1 }

/-- Ensure environment in which the max-order-number read fails with a
missing-column error and the insert succeeds. -/
def envC5 : EnsureEnv :=
  { session := sessJo
    existingRes := .ok none
    lastOrderRes := .err schemaErr
    fullInsertRes := .ok oRow2
    completeRes := .ok oRow2 }

/-- A session whose metadata phone normalizes to fewer than 10 digits. -/
def sessShortPhone : Session :=
  { id := "cs_short"
    payment_status := some "paid"
    metadata :=
      { customer_name := some "Jo Lee"
        customer_phone := some "555-123" }
    amount_total := some 2150 }

/-- Ensure environment holding the short-phone session. -/
def envC7 : EnsureEnv :=
  { session := sessShortPhone
    existingRes := .ok none
    fullInsertRes := .ok oRow1
    completeRes := .ok oRow1 }

/-- Webhook environment for the short-phone session. -/
def wenvC7 : WebhookEnv :=
  { fullInsertRes := .ok oRow1 }

/-- Metadata carrying a negative `tip_amount`. -/
def metaNegTip : Meta :=
  { customer_name := some "Jo Lee"
    customer_phone := some "555-111-2222"
    tip_amount := some (.num (-3)) }

/-- A paid session carrying the negative tip metadata. -/
def sessNegTip : Session :=
  { id := "cs_neg"
    payment_status := some "paid"
    metadata := metaNegTip
    amount_total := some 2150 }

/-- Ensure environment for the negative-tip session. -/
def envNegTip : EnsureEnv :=
  { session := sessNegTip
    existingRes := .ok none
    fullInsertRes := .ok oRow2
    completeRes := .ok oRow2 }

/-- A one-order store whose order is already completed. -/
def storeC10 : List StoredOrder := [{ id := "a", status := "completed" }]

/-! ## Theorems -/

/-- If the single-row fetch of the PATCH route returns an order, that order
matches the requested id. -/
theorem patchFetchSingle_matches (store : List StoredOrder) (oid : String)
    (o : StoredOrder) (h : patchFetchSingle store oid = some o) : o.id = oid := by
  unfold patchFetchSingle at h
  cases hf : store.filter (fun r => r.id = oid) with
  | nil => rw [hf] at h; simp at h
  | cons a tl =>
    cases tl with
    | nil =>
      rw [hf] at h
      simp at h
      subst h
      have ha : a ∈ store.filter (fun r => r.id = oid) := by
        rw [hf]; exact List.mem_singleton_self a
      simpa using (List.mem_filter.mp ha).2
    | cons b tl2 => rw [hf] at h; simp at h

/-- The single-row fetch commutes with the status update map of the PATCH
route (the update never changes ids). -/
theorem patchFetchSingle_update (store : List StoredOrder) (oid st : String) :
    patchFetchSingle
      (store.map (fun r => if r.id = oid then { r with status := st } else r)) oid =
    (patchFetchSingle store oid).map
      (fun r => if r.id = oid then { r with status := st } else r) := by
  unfold patchFetchSingle
  rw [List.filter_map]
  have hp : ((fun o : StoredOrder => decide (o.id = oid)) ∘
      (fun r : StoredOrder => if r.id = oid then { r with status := st } else r)) =
      (fun o : StoredOrder => decide (o.id = oid)) := by
    funext r
    by_cases h : r.id = oid <;> simp [h]
  rw [hp]
  cases hf : store.filter (fun o => o.id = oid) with
  | nil => simp
  | cons a tl => cases tl <;> simp

/-- Claim C1: when a persisted order already exists for the session id, both
entry points return immediately with the existing-order outcome
(`created = false` for the ensure route, the already-processed acknowledgement
for the webhook) and the whole storage trace is the single existence query:
no order-number read, no order insert and no item insert happen. -/
theorem C1_existing_short_circuit
    (sid : String) (env : EnsureEnv) (o : OrderRow)
    (hcfg : env.stripeConfigured = true) (hsid : sid ≠ "")
    (hex : env.existingRes = .ok (some o))
    (s : Session) (wenv : WebhookEnv) (o2 : OrderRow) (nm ph : String)
    (hnp : notPaidCheck s = false)
    (hnm : webhookMetaName s = some nm) (hph : webhookMetaPhone s = some ph)
    (hlen : ¬ (digitsOf ph).length < 10)
    (hwex : wenv.existingRes = .ok o2) :
    ensureFlow sid env = (.okOrder o false, [.selectOrderBySession sid]) ∧
    webhookFlow s wenv =
      (.ack (some "Order already processed"), [.selectOrderBySession s.id]) := by
  constructor
  · simp [ensureFlow, hcfg, hsid, hex]
  · simp [webhookFlow, hnp, hnm, hph, hlen, hwex]

/-- Witness for C1 at concrete inputs. -/
theorem C1_existing_short_circuit_witness :
    ensureFlow "cs_test_1" envC1 =
      (.okOrder oRow1 false, [.selectOrderBySession "cs_test_1"]) ∧
    webhookFlow sessJo wenvC1 =
      (.ack (some "Order already processed"), [.selectOrderBySession "cs_test_1"]) :=
  C1_existing_short_circuit "cs_test_1" envC1 oRow1 rfl (by decide) rfl
    sessJo wenvC1 oRow1 "Jo Lee" "555-111-2222" (by decide) (by decide) (by decide)
    (by decide) rfl

/-- Claim C3, counterexample: the ensure entry point does NOT return a success
no-op for a not-paid session; it reports a 400 error to the caller. -/
theorem C3_counterexample :
    ensureFlow "cs_unpaid" envUnpaid =
      (.errResp "Session is not paid" 400, [.selectOrderBySession "cs_unpaid"]) := by
  decide

/-- Claim C3 (amended): for a session whose non-empty payment state is neither
paid nor no-payment-required, nothing is ever written in either entry point;
the webhook acknowledges the event as a success no-op, while the ensure entry
point reports the condition to its caller as a 400 error. -/
theorem C3_not_paid_handling :
    (∀ (s : Session) (wenv : WebhookEnv), notPaidCheck s = true →
      webhookFlow s wenv = (.ack none, [])) ∧
    (∀ (sid : String) (env : EnsureEnv), env.stripeConfigured = true → sid ≠ "" →
      env.existingRes = .ok none → notPaidCheck env.session = true →
      ensureFlow sid env =
        (.errResp "Session is not paid" 400, [.selectOrderBySession sid])) := by
  constructor
  · intro s wenv h
    simp [webhookFlow, h]
  · intro sid env hcfg hsid hex h
    simp [ensureFlow, hcfg, hsid, hex, h]

/-- Witness for C3 at concrete inputs. -/
theorem C3_not_paid_handling_witness :
    webhookFlow sessUnpaid wenvC1 = (.ack none, []) ∧
    ensureFlow "cs_unpaid" envUnpaid =
      (.errResp "Session is not paid" 400, [.selectOrderBySession "cs_unpaid"]) :=
  ⟨C3_not_paid_handling.1 sessUnpaid wenvC1 (by decide),
   C3_not_paid_handling.2 "cs_unpaid" envUnpaid rfl (by decide) rfl (by decide)⟩

/-- Claim C2, counterexample: in the webhook, an order insert that fails after
an existence check that found nothing is NOT followed by a re-query; the run
performs exactly one by-session query and propagates the failure as a 500. -/
theorem C2_counterexample :
    (webhookFlow sessJo wenvC2).1 = .errorResp "Failed to process order" 500 ∧
    countSessionSelects (webhookFlow sessJo wenvC2).2 = 1 ∧
    countOrderInserts (webhookFlow sessJo wenvC2).2 = 1 := by
  decide

/-- Claim C2 (amended): only the ensure entry point re-queries by session id
when the order insert fails after the existence check found nothing — the
re-query happens (a second by-session select in the trace); an order found by
it is returned with `created = false`, and only when the re-query finds
nothing (or itself fails) does the storage error propagate as fatal. The
webhook performs no re-query: the insert error propagates directly as a 500
after the single by-session query. -/
theorem C2_insert_failure_requery :
    (∀ (sid : String) (env : EnsureEnv) (e : DBError),
      env.stripeConfigured = true → sid ≠ "" →
      env.existingRes = .ok none → notPaidCheck env.session = false →
      ¬(ensureCustomerName env.session = "" ∨ ensurePhoneDigits env.session = "") →
      ¬(ensurePhoneDigits env.session).length < 10 →
      (insertWithFallback env.fullInsertRes env.minInsertRes).1 = .err e →
      countSessionSelects (ensureFlow sid env).2 = 2 ∧
      (∀ o, env.retryRes = .ok (some o) → (ensureFlow sid env).1 = .okOrder o false) ∧
      (env.retryRes = .ok none →
        (ensureFlow sid env).1 = .errResp (errMsgOr e.message) 500) ∧
      (∀ e2, env.retryRes = .err e2 →
        (ensureFlow sid env).1 = .errResp (errMsgOr e.message) 500)) ∧
    (∀ (s : Session) (wenv : WebhookEnv) (nm ph : String) (e0 e : DBError),
      notPaidCheck s = false →
      webhookMetaName s = some nm → webhookMetaPhone s = some ph →
      ¬ (digitsOf ph).length < 10 →
      wenv.existingRes = .err e0 → isMissingColumnError (some e0.message) = false →
      (insertWithFallback wenv.fullInsertRes wenv.minInsertRes).1 = .err e →
      (webhookFlow s wenv).1 = .errorResp "Failed to process order" 500 ∧
      countSessionSelects (webhookFlow s wenv).2 = 1) := by
  constructor
  · intro sid env e hcfg hsid hex hnp hname hlen hins
    rcases h2 : (insertWithFallback env.fullInsertRes env.minInsertRes).2 <;>
      refine ⟨?_, ?_, ?_, ?_⟩ <;>
      first
        | (intro o hr
           simp [ensureFlow, hcfg, hsid, hex, hnp, hname, hlen, hins, h2, hr,
             countSessionSelects])
        | (intro hr
           simp [ensureFlow, hcfg, hsid, hex, hnp, hname, hlen, hins, h2, hr,
             countSessionSelects])
        | (rcases hr : env.retryRes with d | e2
           · rcases d with _ | o <;>
               simp [ensureFlow, hcfg, hsid, hex, hnp, hname, hlen, hins, h2, hr,
                 countSessionSelects]
           · simp [ensureFlow, hcfg, hsid, hex, hnp, hname, hlen, hins, h2, hr,
               countSessionSelects])
  · intro s wenv nm ph e0 e hnp hnm hph hlen hex hnc hins
    rcases h2 : (insertWithFallback wenv.fullInsertRes wenv.minInsertRes).2 <;>
      constructor <;>
      simp [webhookFlow, hnp, hnm, hph, hlen, hex, hnc, hins, h2, countSessionSelects]

/-- Witness for C2 (amended) at concrete inputs: the ensure run recovers the
racing order with `created = false`; the webhook run fails with a 500 after a
single by-session query. -/
theorem C2_insert_failure_requery_witness :
    countSessionSelects (ensureFlow "cs_test_1" envC2w).2 = 2 ∧
    (ensureFlow "cs_test_1" envC2w).1 = .okOrder oRow1 false ∧
    (webhookFlow sessJo wenvC2).1 = .errorResp "Failed to process order" 500 ∧
    countSessionSelects (webhookFlow sessJo wenvC2).2 = 1 := by
  have h := C2_insert_failure_requery
  have he := h.1 "cs_test_1" envC2w dupErr rfl (by decide) rfl (by decide)
    (by decide) (by decide) (by decide)
  have hw := h.2 sessJo wenvC2 "Jo Lee" "555-111-2222" noRowsErr dupErr
    (by decide) (by decide) (by decide) (by decide) rfl (by decide) (by decide)
  exact ⟨he.1, he.2.1 oRow1 rfl, hw.1, hw.2⟩

/-- Claim C4, counterexample: in the webhook, a failing order_items insert
after a successful order insert is NOT merely logged — the handler surfaces a
500 processing error to the provider (the order insert itself remains in the
trace; nothing deletes it). -/
theorem C4_counterexample :
    (webhookFlow sessJo wenvC4).1 = .errorResp "Failed to process order" 500 ∧
    countOrderInserts (webhookFlow sessJo wenvC4).2 = 1 ∧
    countItemInserts (webhookFlow sessJo wenvC4).2 = 1 := by
  decide

/-- Claim C4 (amended): when the order insert succeeds and the order_items
insert then fails, neither entry point rolls back or deletes the order (the
model has no delete operation and the successful order insert stays in the
trace). In the ensure entry point the failure is only logged and the created
order is still returned with `created = true`; in the webhook the failure
propagates as a 500 processing error to the trigger. -/
theorem C4_items_insert_failure :
    (∀ (sid : String) (env : EnsureEnv) (order : OrderRow) (e : DBError),
      env.stripeConfigured = true → sid ≠ "" →
      env.existingRes = .ok none → notPaidCheck env.session = false →
      ¬(ensureCustomerName env.session = "" ∨ ensurePhoneDigits env.session = "") →
      ¬(ensurePhoneDigits env.session).length < 10 →
      (insertWithFallback env.fullInsertRes env.minInsertRes).1 = .ok order →
      ensureLineItemRows order.id env.lineItems ≠ [] →
      env.itemsInsertErr = some e →
      (ensureFlow sid env).1.isCreated = true ∧
      countOrderInserts (ensureFlow sid env).2 ≥ 1 ∧
      countItemInserts (ensureFlow sid env).2 = 1) ∧
    (∀ (s : Session) (wenv : WebhookEnv) (nm ph : String) (e0 : DBError)
        (order : OrderRow) (e : DBError),
      notPaidCheck s = false →
      webhookMetaName s = some nm → webhookMetaPhone s = some ph →
      ¬ (digitsOf ph).length < 10 →
      wenv.existingRes = .err e0 → isMissingColumnError (some e0.message) = false →
      (insertWithFallback wenv.fullInsertRes wenv.minInsertRes).1 = .ok order →
      wenv.itemsInsertErr = some e →
      (webhookFlow s wenv).1 = .errorResp "Failed to process order" 500 ∧
      countOrderInserts (webhookFlow s wenv).2 ≥ 1 ∧
      countItemInserts (webhookFlow s wenv).2 = 1) := by
  constructor
  · intro sid env order e hcfg hsid hex hnp hname hlen hins hrows hitems
    have hlenpos : 0 < (ensureLineItemRows order.id env.lineItems).length :=
      List.length_pos.mpr hrows
    rcases h2 : (insertWithFallback env.fullInsertRes env.minInsertRes).2 <;>
      rcases hc : env.completeRes with c | ce <;>
      refine ⟨?_, ?_, ?_⟩ <;>
      simp [ensureFlow, hcfg, hsid, hex, hnp, hname, hlen, hins, h2, hc, hlenpos,
        EnsureResp.isCreated, countOrderInserts, countItemInserts]
  · intro s wenv nm ph e0 order e hnp hnm hph hlen hex hnc hins hitems
    rcases h2 : (insertWithFallback wenv.fullInsertRes wenv.minInsertRes).2 <;>
      refine ⟨?_, ?_, ?_⟩ <;>
      simp [webhookFlow, hnp, hnm, hph, hlen, hex, hnc, hins, h2, hitems,
        countOrderInserts, countItemInserts]

/-- Witness for C4 (amended) at concrete inputs. -/
theorem C4_items_insert_failure_witness :
    ((ensureFlow "cs_test_1" envC4w).1.isCreated = true ∧
      countOrderInserts (ensureFlow "cs_test_1" envC4w).2 ≥ 1 ∧
      countItemInserts (ensureFlow "cs_test_1" envC4w).2 = 1) ∧
    ((webhookFlow sessJo wenvC4).1 = .errorResp "Failed to process order" 500 ∧
      countOrderInserts (webhookFlow sessJo wenvC4).2 ≥ 1 ∧
      countItemInserts (webhookFlow sessJo wenvC4).2 = 1) :=
  ⟨C4_items_insert_failure.1 "cs_test_1" envC4w oRow1 itemsFailErr rfl (by decide)
      rfl (by decide) (by decide) (by decide) (by decide) (by decide) rfl,
   C4_items_insert_failure.2 sessJo wenvC4 "Jo Lee" "555-111-2222" noRowsErr
      oRow1 itemsFailErr (by decide) (by decide) (by decide) (by decide) rfl
      (by decide) (by decide) rfl⟩

/-- Claim C5, counterexample: with a stored maximum order number of 0 the
allocator yields 1000 (JS truthiness treats 0 like "no maximum"), not
`max + 1 = 1`. -/
theorem C5_counterexample :
    allocOrderNumber (.ok (some (some 0))) = (false, some 1000) ∧
    ¬ allocOrderNumber (.ok (some (some 0))) = (false, some (0 + 1)) := by
  decide

/-- Claim C5 (amended): when the max-order-number read succeeds, the next
number is `max + 1` for any non-zero stored maximum, and 1000 when no maximum
exists or the stored maximum is 0 (JS truthiness); when the read fails with a
missing-column error, no number is allocated and order creation still
succeeds with no `order_number` key in the persisted payload. -/
theorem C5_order_number_allocation :
    (∀ n : Int, n ≠ 0 →
      allocOrderNumber (.ok (some (some n))) = (false, some (n + 1))) ∧
    allocOrderNumber (.ok none) = (false, some 1000) ∧
    allocOrderNumber (.ok (some none)) = (false, some 1000) ∧
    allocOrderNumber (.ok (some (some 0))) = (false, some 1000) ∧
    (∀ e : DBError, isMissingColumnError (some e.message) = true →
      allocOrderNumber (.err e) = (true, none)) ∧
    (∀ (sid : String) (env : EnsureEnv) (e : DBError) (order c : OrderRow),
      env.stripeConfigured = true → sid ≠ "" →
      env.existingRes = .ok none → notPaidCheck env.session = false →
      ¬(ensureCustomerName env.session = "" ∨ ensurePhoneDigits env.session = "") →
      ¬(ensurePhoneDigits env.session).length < 10 →
      env.lastOrderRes = .err e → isMissingColumnError (some e.message) = true →
      env.fullInsertRes = .ok order → env.lineItems = [] → env.completeRes = .ok c →
      ensureFlow sid env =
        (.okOrderSub c true (ensureSubtotalAmount env.session),
         [.selectOrderBySession sid, .selectMaxOrderNumber,
          .insertOrder (ensureFullInsertPayload env.session sid true none),
          .selectOrderById order.id]) ∧
      (ensureFullInsertPayload env.session sid true none).lookup "order_number" =
        none) := by
  refine ⟨?_, by decide, by decide, by decide, ?_, ?_⟩
  · intro n hn
    simp [allocOrderNumber, hn]
  · intro e h
    simp [allocOrderNumber, h]
  · intro sid env e order c hcfg hsid hex hnp hname hlen hlast hmc hfull hli hc
    constructor
    · simp [ensureFlow, hcfg, hsid, hex, hnp, hname, hlen, hlast, hmc, hfull, hli,
        hc, allocOrderNumber, insertWithFallback, ensureLineItemRows]
    · simp [ensureFullInsertPayload, ensureOrderNumberPayload, List.lookup]

/-- Witness for C5 (amended) at concrete inputs. -/
theorem C5_order_number_allocation_witness :
    ensureFlow "cs_test_1" envC5 =
      (.okOrderSub oRow2 true (ensureSubtotalAmount sessJo),
       [.selectOrderBySession "cs_test_1", .selectMaxOrderNumber,
        .insertOrder (ensureFullInsertPayload sessJo "cs_test_1" true none),
        .selectOrderById "ord_2"]) ∧
    (ensureFullInsertPayload sessJo "cs_test_1" true none).lookup "order_number" =
      none :=
  C5_order_number_allocation.2.2.2.2.2 "cs_test_1" envC5 schemaErr oRow2 oRow2
    rfl (by decide) rfl (by decide) (by decide) (by decide) rfl (by decide) rfl
    rfl rfl

/-- Claim C6: the full insert is attempted first and the single minimal retry
happens exactly when the full insert fails with a message matching the
missing-column heuristic; any other error stands unchanged; and the minimal
field set is a strict subset of the full field set (with equal values on the
shared keys), in both routes. -/
theorem C6_full_insert_fallback :
    (∀ f m : DBRes OrderRow,
      (insertWithFallback f m).2 = true ↔
        ∃ e, f = .err e ∧ isMissingColumnError (some e.message) = true) ∧
    (∀ (f m : DBRes OrderRow) (e : DBError), f = .err e →
      isMissingColumnError (some e.message) = true →
      insertWithFallback f m = (m, true)) ∧
    (∀ (f m : DBRes OrderRow) (e : DBError), f = .err e →
      isMissingColumnError (some e.message) = false →
      insertWithFallback f m = (f, false)) ∧
    (∀ (s : Session) (sid : String) (cm : Bool) (next : Option Int)
        (kv : String × Val), kv ∈ ensureMinimalInsertPayload s sid cm next →
      kv ∈ ensureFullInsertPayload s sid cm next) ∧
    (∀ (s : Session) (sid : String) (cm : Bool) (next : Option Int),
      ("customer_first_name", nullableStr (ensureFirstName s)) ∈
        ensureFullInsertPayload s sid cm next ∧
      ∀ kv ∈ ensureMinimalInsertPayload s sid cm next,
        kv.1 ≠ "customer_first_name") ∧
    (∀ (s : Session) (kv : String × Val), kv ∈ webhookMinimalInsertPayload s →
      kv ∈ webhookFullInsertPayload s) ∧
    (∀ s : Session,
      ("customer_first_name",
        Val.s (webhookFirstName s ((webhookMetaName s).getD ""))) ∈
        webhookFullInsertPayload s ∧
      ∀ kv ∈ webhookMinimalInsertPayload s, kv.1 ≠ "customer_first_name") := by
  refine ⟨?_, ?_, ?_, ?_, ?_, ?_, ?_⟩
  · intro f m
    cases f with
    | ok d => simp [insertWithFallback]
    | err e =>
      by_cases h : isMissingColumnError (some e.message) <;>
        simp [insertWithFallback, h]
  · intro f m e hf h
    subst hf
    simp [insertWithFallback, h]
  · intro f m e hf h
    subst hf
    simp [insertWithFallback, h]
  · intro s sid cm next kv h
    simp only [ensureMinimalInsertPayload, ensureFullInsertPayload,
      List.mem_append, List.mem_cons, List.not_mem_nil, or_false] at h ⊢
    tauto
  · intro s sid cm next
    constructor
    · simp [ensureFullInsertPayload]
    · intro kv h
      simp only [ensureMinimalInsertPayload] at h
      rcases List.mem_append.mp h with h | h
      · simp only [List.mem_cons, List.not_mem_nil, or_false] at h
        rcases h with h | h | h | h | h | h | h <;> simp [h]
      · unfold ensureOrderNumberPayload at h
        split at h
        · simp at h
        · split at h
          · simp at h
          · simp only [List.mem_cons, List.not_mem_nil, or_false] at h
            simp [h]
  · intro s kv h
    simp only [webhookMinimalInsertPayload, webhookFullInsertPayload,
      List.mem_cons, List.not_mem_nil, or_false] at h ⊢
    tauto
  · intro s
    constructor
    · simp [webhookFullInsertPayload]
    · intro kv h
      simp only [webhookMinimalInsertPayload, List.mem_cons,
        List.not_mem_nil, or_false] at h
      rcases h with h | h | h | h | h | h | h <;> simp [h]

/-- Witness for C6 at concrete inputs: a schema-cache error triggers the
minimal retry, a duplicate-key error does not, and a shared payload entry of
the minimal shape is indeed in the full shape. -/
theorem C6_full_insert_fallback_witness :
    insertWithFallback (.err schemaErr) (.ok oRow1) = (.ok oRow1, true) ∧
    insertWithFallback (.err dupErr) (.ok oRow1) = (.err dupErr, false) ∧
    ("status", Val.s "pending") ∈
      ensureFullInsertPayload sessJo "cs_test_1" false (some 1000) :=
  ⟨C6_full_insert_fallback.2.1 (.err schemaErr) (.ok oRow1) schemaErr rfl
      (by decide),
   C6_full_insert_fallback.2.2.1 (.err dupErr) (.ok oRow1) dupErr rfl
      (by decide),
   C6_full_insert_fallback.2.2.2.1 sessJo "cs_test_1" false (some 1000)
      ("status", Val.s "pending") (by decide)⟩

/-- Claim C7: phone normalization strips every non-digit character — the
example from the specification evaluates as stated — and in both entry points
a phone normalizing to fewer than 10 digits makes the run end in a rejection
before any order or item insert. -/
theorem C7_phone_normalization :
    digitsOf "(555) 123-4567" = "5551234567" ∧
    (∀ (sid : String) (env : EnsureEnv),
      env.stripeConfigured = true → sid ≠ "" →
      env.existingRes = .ok none → notPaidCheck env.session = false →
      (ensurePhoneDigits env.session).length < 10 →
      (∃ msg, (ensureFlow sid env).1 = .errResp msg 400) ∧
      countOrderInserts (ensureFlow sid env).2 = 0 ∧
      countItemInserts (ensureFlow sid env).2 = 0) ∧
    (∀ (s : Session) (wenv : WebhookEnv), notPaidCheck s = false →
      (webhookPhoneDigits s).length < 10 →
      webhookFlow s wenv = (.errorResp "Failed to process order" 500, [])) := by
  refine ⟨by decide, ?_, ?_⟩
  · intro sid env hcfg hsid hex hnp hlen
    by_cases hname :
        (ensureCustomerName env.session = "" ∨ ensurePhoneDigits env.session = "")
    · refine ⟨⟨"Missing customer_name/customer_phone on session", ?_⟩, ?_, ?_⟩ <;>
        simp [ensureFlow, hcfg, hsid, hex, hnp, hname, countOrderInserts,
          countItemInserts]
    · refine ⟨⟨"Invalid customer_phone on session", ?_⟩, ?_, ?_⟩ <;>
        simp [ensureFlow, hcfg, hsid, hex, hnp, hname, hlen, countOrderInserts,
          countItemInserts]
  · intro s wenv hnp hlen
    cases hnm : webhookMetaName s with
    | none => simp [webhookFlow, hnp, hnm]
    | some nm =>
      cases hph : webhookMetaPhone s with
      | none => simp [webhookFlow, hnp, hnm, hph]
      | some ph =>
        have hl : (digitsOf ph).length < 10 := by
          unfold webhookPhoneDigits at hlen
          rw [hph] at hlen
          simpa using hlen
        simp [webhookFlow, hnp, hnm, hph, hl]

/-- Witness for C7 at concrete inputs. -/
theorem C7_phone_normalization_witness :
    ((∃ msg, (ensureFlow "cs_short" envC7).1 = .errResp msg 400) ∧
      countOrderInserts (ensureFlow "cs_short" envC7).2 = 0 ∧
      countItemInserts (ensureFlow "cs_short" envC7).2 = 0) ∧
    webhookFlow sessShortPhone wenvC7 =
      (.errorResp "Failed to process order" 500, []) :=
  ⟨C7_phone_normalization.2.1 "cs_short" envC7 rfl (by decide) rfl (by decide)
      (by decide),
   C7_phone_normalization.2.2 sessShortPhone wenvC7 (by decide) (by decide)⟩

/-- Claim C8: `totalAmount` is the session `amount_total` (minor units)
divided by 100 and rounded to 2 decimals, and in both routes
`subtotalAmount = round2 (totalAmount - taxAmount - tipAmount)`; at the
specification scenario (2150 cents, tax 1.50, no tip) the total is 21.50 and
the subtotal 20. -/
theorem C8_amount_derivation :
    (∀ (s : Session) (n : Int), s.amount_total = some n →
      totalAmountOf s = round2 ((n : ℚ) / 100) ∧
      ensureSubtotalAmount s =
        round2 (totalAmountOf s - ensureTaxAmount s - ensureTipAmount s) ∧
      webhookSubtotalAmount s =
        round2 (totalAmountOf s - webhookTaxAmount s - webhookNormalizedTipAmount s)) ∧
    totalAmountOf sessJo = 2150 / 100 ∧
    ensureSubtotalAmount sessJo = 20 := by
  refine ⟨?_, ?_, ?_⟩
  · intro s n h
    refine ⟨?_, rfl, rfl⟩
    simp [totalAmountOf, stripeTotalRaw, h]
  · norm_num [totalAmountOf, stripeTotalRaw, sessJo, round2]
  · norm_num [ensureSubtotalAmount, totalAmountOf, stripeTotalRaw,
      ensureTaxAmount, ensureTipAmount, sessJo, metaJo, metaNumVal, round2]

/-- Witness for C8 at the specification scenario session. -/
theorem C8_amount_derivation_witness :
    totalAmountOf sessJo = round2 (((2150 : Int) : ℚ) / 100) ∧
    ensureSubtotalAmount sessJo =
      round2 (totalAmountOf sessJo - ensureTaxAmount sessJo - ensureTipAmount sessJo) ∧
    webhookSubtotalAmount sessJo =
      round2 (totalAmountOf sessJo - webhookTaxAmount sessJo -
        webhookNormalizedTipAmount sessJo) :=
  C8_amount_derivation.1 sessJo 2150 rfl

/-- Claim C9, counterexample: a negative numeric `tip_amount` metadata value
(-3) reaches the persisted order payload unchanged through the ensure entry
point. -/
theorem C9_counterexample :
    (firstOrderInsertPayload (ensureFlow "cs_neg" envNegTip).2).map
        (fun p => p.lookup "tip_amount") = some (some (Val.n (-3))) ∧
    ((-3 : ℚ) < 0) := by
  exact ⟨by decide, by decide⟩

/-- Claim C9 (amended): the webhook clamps `tipAmount` and `tipPercent` to
non-negative values, but `taxAmount` is passed through unclamped there, and
the ensure entry point clamps none of the three — a negative numeric metadata
value reaches the persisted order; non-numeric metadata values do become 0. -/
theorem C9_nonneg_handling :
    (∀ v : Option JSNum, 0 ≤ metaNumValClamped v) ∧
    (∀ s : Session, 0 ≤ webhookNormalizedTipAmount s ∧ 0 ≤ webhookTipPercent s) ∧
    (∀ (s : Session) (q : ℚ), s.metadata.tax = some (.num q) →
      webhookTaxAmount s = q ∧ ensureTaxAmount s = q) ∧
    (∀ (s : Session) (q : ℚ), s.metadata.tip_amount = some (.num q) →
      ensureTipAmount s = q) ∧
    (∀ (s : Session) (q : ℚ), s.metadata.tip_percent = some (.num q) →
      ensureTipPercent s = q) ∧
    (∀ s : Session, s.metadata.tax = some .nan →
      webhookTaxAmount s = 0 ∧ ensureTaxAmount s = 0) := by
  have hclamp : ∀ v : Option JSNum, 0 ≤ metaNumValClamped v := by
    intro v
    rcases v with _ | j
    · simp [metaNumValClamped]
    · rcases j with _ | q
      · simp [metaNumValClamped]
      · simp only [metaNumValClamped]
        split
        · next h => exact h
        · exact le_refl 0
  refine ⟨hclamp, ?_, ?_, ?_, ?_, ?_⟩
  · intro s
    refine ⟨?_, hclamp _⟩
    unfold webhookNormalizedTipAmount
    split
    · exact hclamp _
    · exact le_refl 0
  · intro s q h
    exact ⟨by simp [webhookTaxAmount, metaNumVal, h],
      by simp [ensureTaxAmount, metaNumVal, h]⟩
  · intro s q h
    simp [ensureTipAmount, metaNumVal, h]
  · intro s q h
    simp [ensureTipPercent, metaNumVal, h]
  · intro s h
    exact ⟨by simp [webhookTaxAmount, metaNumVal, h],
      by simp [ensureTaxAmount, metaNumVal, h]⟩

/-- Witness for C9 (amended) at concrete inputs: the scenario tax reaches both
routes unchanged and the negative tip reaches the ensure draft unchanged. -/
theorem C9_nonneg_handling_witness :
    (webhookTaxAmount sessJo = 3 / 2 ∧ ensureTaxAmount sessJo = 3 / 2) ∧
    ensureTipAmount sessNegTip = -3 :=
  ⟨C9_nonneg_handling.2.2.1 sessJo (3 / 2) rfl,
   C9_nonneg_handling.2.2.2.1 sessNegTip (-3) rfl⟩

/-- Claim C10: the PATCH route accepts each of the four fixed statuses from
any current status (no lifecycle ordering is enforced, so backward
transitions succeed and persist the requested value), and rejects every other
requested status — and a missing status — before any write. -/
theorem C10_status_transition :
    (∀ (store : List StoredOrder) (oid st : String) (o : StoredOrder),
      patchFetchSingle store oid = some o → st ∈ VALID_STATUSES →
      patchFlow store oid (some st) =
        (.updated { id := o.id, status := st },
         store.map (fun r => if r.id = oid then { r with status := st } else r))) ∧
    (∀ (store : List StoredOrder) (oid st : String), st ∉ VALID_STATUSES →
      patchFlow store oid (some st) =
        (.invalidStatus ("Invalid status. Must be one of: " ++
          String.intercalate ", " VALID_STATUSES), store)) ∧
    (∀ (store : List StoredOrder) (oid : String),
      patchFlow store oid none =
        (.invalidStatus ("Invalid status. Must be one of: " ++
          String.intercalate ", " VALID_STATUSES), store)) ∧
    (∀ (store : List StoredOrder) (oid st : String), st ∈ VALID_STATUSES →
      patchFetchSingle store oid = none →
      patchFlow store oid (some st) = (.notFound, store)) := by
  refine ⟨?_, ?_, ?_, ?_⟩
  · intro store oid st o hfetch hmem
    have hid : o.id = oid := patchFetchSingle_matches store oid o hfetch
    have hupd : patchFetchSingle
        (store.map (fun r => if r.id = oid then { r with status := st } else r))
        oid = some { o with status := st } := by
      rw [patchFetchSingle_update, hfetch]
      simp [hid]
    fin_cases hmem <;>
      simp [patchFlow, hfetch, hupd, VALID_STATUSES]
  · intro store oid st hmem
    simp [patchFlow, hmem]
  · intro store oid
    simp [patchFlow]
  · intro store oid st hmem hfetch
    fin_cases hmem <;> simp [patchFlow, hfetch, VALID_STATUSES]

/-- Witness for C10 at a concrete backward transition: an order currently
completed is moved back to pending and the store persists it. -/
theorem C10_status_transition_witness :
    patchFlow storeC10 "a" (some "pending") =
      (.updated { id := "a", status := "pending" },
       [{ id := "a", status := "pending" }]) :=
  C10_status_transition.1 storeC10 "a" "pending"
    { id := "a", status := "completed" } (by decide) (by decide)
